import Mathlib

/-!
A shallow embedding of the rdbunit SQL unit-test transpiler
(`src/rdbunit/__main__.py`) and proofs about it.

The transpiler is a pure text-to-text compiler: it reads a line-oriented
test-specification DSL and prints SQL statements.  We model every `print`
call as one element of a `List String`, fatal termination (`sys.exit`,
uncaught exceptions) as the error side of `Except String`, and Python
regular expressions by hand-written recognizers that follow the regex
text literally (including Python's `$` semantics: end of string or just
before one trailing newline).

Character-level operations (case folding for `re.IGNORECASE` and
`str.lower`, the `\w` class) are modelled on the ASCII range, which is
the range the DSL and the generated SQL use.
-/

namespace Rdbunit

set_option maxRecDepth 8192

/-- Python `str.lower` / `re.IGNORECASE` case folding, ASCII range:
the folded code point of a character. -/
def lcVal (c : Char) : Nat :=
  if 65 ≤ c.toNat ∧ c.toNat ≤ 90 then c.toNat + 32 else c.toNat

/-- Case-insensitive character equality (ASCII), as used by
`re.IGNORECASE` matching. -/
def eqCaseless (a b : Char) : Bool :=
  decide (lcVal a = lcVal b)

/-- Python's `\w` character class on the ASCII range:
letters, digits and the underscore. -/
def isWordCharB (c : Char) : Bool :=
  decide ((48 ≤ c.toNat ∧ c.toNat ≤ 57) ∨ (65 ≤ c.toNat ∧ c.toNat ≤ 90) ∨
          (97 ≤ c.toNat ∧ c.toNat ≤ 122) ∨ c.toNat = 95)

/-- First character of an identifier in `RE_DB_TABLESPEC`: `[A-Za-z_]`. -/
def isIdentStart (c : Char) : Bool :=
  decide ((65 ≤ c.toNat ∧ c.toNat ≤ 90) ∨ (97 ≤ c.toNat ∧ c.toNat ≤ 122) ∨
          c.toNat = 95)

/-- ASCII lower-casing of one character (Python `str.lower`). -/
def lcChar (c : Char) : Char :=
  if 65 ≤ c.toNat ∧ c.toNat ≤ 90 then Char.ofNat (c.toNat + 32) else c

/-- Python `str.lower` on a whole string (ASCII range). -/
def pyLower (s : String) : String :=
  String.mk (s.toList.map lcChar)

/-- Python `str.rstrip()` with no argument: drop trailing whitespace. -/
def rstrip (s : String) : String :=
  String.mk (s.toList.reverse.dropWhile Char.isWhitespace).reverse

/-- Python `str.strip()` with no argument: drop whitespace on both sides. -/
def pyStrip (s : String) : String :=
  String.mk ((s.toList.dropWhile Char.isWhitespace).reverse.dropWhile
    Char.isWhitespace).reverse

/-- Is `needle` a contiguous sub-list of `haystack`? -/
def listContains (haystack needle : List Char) : Bool :=
  match haystack with
  | [] => needle.isEmpty
  | _ :: rest => needle.isPrefixOf haystack || listContains rest needle

/-- Python `needle in haystack` on strings (substring containment). -/
def strContains (haystack needle : String) : Bool :=
  listContains haystack.toList needle.toList

/-- Python `line[:-1]` (drop the final character). -/
def dropLast1 (s : String) : String :=
  String.mk (s.toList.dropLast)

/-- Python `str.split()` with no argument (scanner): split on
whitespace runs, discarding empty fields; `acc` is the current token,
reversed. -/
def pySplitAux : List Char → List Char → List String
  | [], acc => if acc = [] then [] else [String.mk acc.reverse]
  | c :: rest, acc =>
    if c.isWhitespace then
      if acc = [] then pySplitAux rest []
      else String.mk acc.reverse :: pySplitAux rest []
    else pySplitAux rest (c :: acc)

/-- Python `str.split()` with no argument: split on whitespace runs,
discarding empty fields. -/
def pySplit (s : String) : List String :=
  pySplitAux s.toList []

/-- Python `s[:n]` (character count; the inputs are ASCII). -/
def strTake (s : String) (n : Nat) : String :=
  String.mk (s.toList.take n)

/-- Python `s[n:]` (character count; the inputs are ASCII). -/
def strDrop (s : String) (n : Nat) : String :=
  String.mk (s.toList.drop n)

/-!
### `shlex.split`

`create_table` and `insert_values` tokenize data rows with
`shlex.split` (POSIX mode, `whitespace_split=True`): fields are
whitespace-separated; single quotes protect text verbatim; double quotes
protect text but allow `\"` and `\\` escapes; outside quotes a backslash
escapes the next character.  (Python raises on an unterminated quote; the
model closes the token at end of input, a case no theorem exercises.)
-/

/-- The single-quote character, U+0027. -/
def squoteChar : Char := Char.ofNat 39

/-- The double-quote character, U+0022. -/
def dquoteChar : Char := Char.ofNat 34

/-- The backslash character, U+005C. -/
def backslashChar : Char := Char.ofNat 92

/-- The scanner mode of the `shlex` model: between tokens, inside an
unquoted token, inside single quotes, inside double quotes. -/
inductive ShMode where
  | out
  | tok
  | sq
  | dq
deriving DecidableEq, Repr

/-- The `shlex` scanner: one pass over the characters, `acc` holding
the current token reversed. -/
def shlexRun : List Char → ShMode → List Char → List (List Char)
  | [], mode, acc =>
    (match mode with
     | .out => []
     | _ => [acc.reverse])
  | c :: rest, mode, acc =>
    match mode with
    | .out =>
      if c.isWhitespace then shlexRun rest .out []
      else if c = squoteChar then shlexRun rest .sq []
      else if c = dquoteChar then shlexRun rest .dq []
      else if c = backslashChar then
        (match rest with
         | [] => [[]]
         | d :: rest2 => shlexRun rest2 .tok [d])
      else shlexRun rest .tok [c]
    | .tok =>
      if c.isWhitespace then acc.reverse :: shlexRun rest .out []
      else if c = squoteChar then shlexRun rest .sq acc
      else if c = dquoteChar then shlexRun rest .dq acc
      else if c = backslashChar then
        (match rest with
         | [] => [acc.reverse]
         | d :: rest2 => shlexRun rest2 .tok (d :: acc))
      else shlexRun rest .tok (c :: acc)
    | .sq =>
      if c = squoteChar then shlexRun rest .tok acc
      else shlexRun rest .sq (c :: acc)
    | .dq =>
      if c = dquoteChar then shlexRun rest .tok acc
      else if c = backslashChar then
        (match rest with
         | [] => [(c :: acc).reverse]
         | d :: rest2 =>
           if d = dquoteChar ∨ d = backslashChar then shlexRun rest2 .dq (d :: acc)
           else shlexRun rest2 .dq (d :: c :: acc))
      else shlexRun rest .dq (c :: acc)

/-- Python `shlex.split`. -/
def shlexSplit (s : String) : List String :=
  (shlexRun s.toList .out []).map String.mk

/-!
### The value-classification regular expressions

```
RE_INTEGER   = re.compile(r'\d+$')
RE_REAL      = re.compile(r'((\d+\.\d*)|(\d*\.\d+)([Ee]-?\d+)?)|\d+[Ee]-?\d+$')
RE_DATE      = re.compile(r'\d{4}-\d\d-\d\d$')
RE_TIME      = re.compile(r'\d+:\d+:\d+$')
RE_TIMESTAMP = re.compile(r'\d{4}-\d\d-\d\d$ \d+:\d+:\d+$')
RE_BOOLEAN   = re.compile(r'(true|false)$', re.IGNORECASE)
```
All are used through `.match`, i.e. anchored at the start.  Python's `$`
(no MULTILINE) asserts end of string or a position just before a single
trailing newline; `RE_TIMESTAMP` contains a `$` in the middle of the
pattern, which is modelled literally below.
-/

/-- Python `$` (no MULTILINE): end of input, or just before a final
newline. -/
def isEndAnchor : List Char → Bool
  | [] => true
  | [c] => c = '\n'
  | _ => false

/-- `\d+$` continued after one digit was consumed: the rest is more
digits followed by the `$` anchor. -/
def digitsThenEnd : List Char → Bool
  | [] => true
  | c :: rest =>
    if c.isDigit then digitsThenEnd rest else isEndAnchor (c :: rest)

/-- `RE_INTEGER.match`: `\d+$`. -/
def reIntegerMatch : List Char → Bool
  | [] => false
  | c :: rest => c.isDigit && digitsThenEnd rest

/-- `\d+\.` as a prefix (first alternative of `RE_REAL`'s left branch;
the trailing `\d*` of the branch always matches, and the branch carries
no end anchor). -/
def realBranchA : List Char → Bool
  | [] => false
  | c :: rest => c.isDigit && realBranchAAfter rest
where
  realBranchAAfter : List Char → Bool
    | [] => false
    | c :: rest => if c = '.' then true else c.isDigit && realBranchAAfter rest

/-- `\d*\.\d+` as a prefix (second alternative of `RE_REAL`'s left
branch; its optional exponent never affects prefix matching). -/
def realBranchB : List Char → Bool
  | [] => false
  | c :: rest =>
    if c = '.' then (match rest with | d :: _ => d.isDigit | [] => false)
    else c.isDigit && realBranchB rest

/-- `\d+[Ee]-?\d+$` (the right branch of `RE_REAL`, carrying the only
end anchor of the pattern). -/
def realBranchC : List Char → Bool
  | [] => false
  | c :: rest => c.isDigit && realBranchCAfter rest
where
  realBranchCAfter : List Char → Bool
    | [] => false
    | c :: rest =>
      if c = 'E' ∨ c = 'e' then
        (match rest with
         | d :: rest2 => if d = '-' then reIntegerMatch rest2 else reIntegerMatch (d :: rest2)
         | [] => false)
      else c.isDigit && realBranchCAfter rest

/-- `RE_REAL.match`. -/
def reRealMatch (s : List Char) : Bool :=
  realBranchA s || realBranchB s || realBranchC s

/-- Consume exactly `n` digits. -/
def consumeDigits : Nat → List Char → Option (List Char)
  | 0, s => some s
  | n + 1, c :: rest => if c.isDigit then consumeDigits n rest else none
  | _ + 1, [] => none

/-- Consume one or more digits (maximal run; the following pattern
characters are never digits, so greediness is deterministic here). -/
def consumeDigits1 : List Char → Option (List Char)
  | c :: rest => if c.isDigit then some (rest.dropWhile Char.isDigit) else none
  | [] => none

/-- Consume one expected literal character. -/
def consumeChar (x : Char) : List Char → Option (List Char)
  | c :: rest => if c = x then some rest else none
  | [] => none

/-- `\d{4}-\d\d-\d\d` (shared prefix of `RE_DATE` and `RE_TIMESTAMP`). -/
def consumeDatePart (s : List Char) : Option (List Char) :=
  (((((consumeDigits 4 s).bind (consumeChar '-')).bind
    (consumeDigits 2)).bind (consumeChar '-')).bind (consumeDigits 2))

/-- `RE_DATE.match`: `\d{4}-\d\d-\d\d$`. -/
def reDateMatch (s : List Char) : Bool :=
  match consumeDatePart s with
  | some rest => isEndAnchor rest
  | none => false

/-- `RE_TIME.match`: `\d+:\d+:\d+$`. -/
def reTimeMatch (s : List Char) : Bool :=
  match (((consumeDigits1 s).bind (consumeChar ':')).bind
      consumeDigits1).bind (consumeChar ':') with
  | some rest => reIntegerMatch rest
  | none => false

/-- `RE_TIMESTAMP.match`: `\d{4}-\d\d-\d\d$ \d+:\d+:\d+$`, with the `$`
in the middle of the pattern modelled literally: after the date part the
position must satisfy the end anchor *and* still provide a space and a
time.  (These requirements are mutually exclusive, which is the
timestamp bug this development exhibits.) -/
def reTimestampMatch (s : List Char) : Bool :=
  match consumeDatePart s with
  | some rest =>
    isEndAnchor rest &&
      (match consumeChar ' ' rest with
       | some rest2 =>
         (match (((consumeDigits1 rest2).bind (consumeChar ':')).bind
             consumeDigits1).bind (consumeChar ':') with
          | some rest3 => reIntegerMatch rest3
          | none => false)
       | none => false)
  | none => false

/-- `RE_BOOLEAN.match`: `(true|false)$` with `re.IGNORECASE`. -/
def reBooleanMatch (s : List Char) : Bool :=
  (match s with
   | t :: r :: u :: e :: rest =>
     eqCaseless t 't' && eqCaseless r 'r' && eqCaseless u 'u' &&
       eqCaseless e 'e' && isEndAnchor rest
   | _ => false) ||
  (match s with
   | f :: a :: l :: s' :: e :: rest =>
     eqCaseless f 'f' && eqCaseless a 'a' && eqCaseless l 'l' &&
       eqCaseless s' 's' && eqCaseless e 'e' && isEndAnchor rest
   | _ => false)

/-!
### The database-dialect engine

`Database` / `DatabaseMySQL` / `DatabasePostgreSQL` / `DatabaseSQLite`.
Each `print` of a method is one list element; a method inherited from
the no-op base class contributes no output.
-/

/-- The selected database engine object. -/
inductive DbEngine where
  | mysql
  | postgresql
  | sqlite
deriving DecidableEq, Repr

/-- `initialize`: engine-specific initialization commands. -/
def engine_init : DbEngine → List String
  | .postgresql => ["\\set ON_ERROR_STOP true\nSET client_min_messages=\x27ERROR\x27;"]
  | _ => []

/-- `drop`: remove the specified database (no-op for SQLite). -/
def db_drop : DbEngine → String → List String
  | .mysql, name => ["DROP DATABASE IF EXISTS " ++ name ++ ";"]
  | .postgresql, name => ["DROP SCHEMA IF EXISTS " ++ name ++ " CASCADE;"]
  | .sqlite, _ => []

/-- `create_db`: create the specified database. -/
def db_create_db : DbEngine → String → List String
  | .mysql, name => ["CREATE DATABASE " ++ name ++ ";"]
  | .postgresql, name => ["CREATE SCHEMA " ++ name ++ ";"]
  | .sqlite, name => ["ATTACH DATABASE \":memory:\" AS " ++ name ++ ";"]

/-- `create_view`: create the specified view. -/
def db_create_view : DbEngine → String → List String
  | .mysql, name => ["CREATE VIEW " ++ name ++ " AS"]
  | .postgresql, name => ["CREATE VIEW " ++ name ++ " AS"]
  | .sqlite, name => ["CREATE TEMP VIEW " ++ name ++ " AS"]

/-- `use`: use by default the specified database (no-op for SQLite). -/
def db_use : DbEngine → String → List String
  | .mysql, name => ["USE " ++ name ++ ";"]
  | .postgresql, name => ["SET search_path TO " ++ name ++ ";"]
  | .sqlite, _ => []

/-- `boolean_value`: the SQL representation of a Boolean value
(SQLite overrides the generic TRUE/FALSE with 1/0). -/
def boolean_value (e : DbEngine) (val : String) : String :=
  match e with
  | .sqlite =>
    if pyLower val = "false" then "0"
    else if pyLower val = "null" then "NULL"
    else "1"
  | _ =>
    if pyLower val = "false" then "FALSE"
    else if pyLower val = "null" then "NULL"
    else "TRUE"

/-- `create_database(dbengine, created_databases, name)`: emit a
drop-and-create pair unless the name is absent or already seen; track
every created name except `default`.  Returns the printed lines and the
updated seen-name list. -/
def create_database (dbengine : DbEngine) (created_databases : List String)
    (name : Option String) : List String × List String :=
  match name with
  | none => ([], created_databases)
  | some n =>
    if n ∈ created_databases then ([], created_databases)
    else
      (db_drop dbengine n ++ db_create_db dbengine n,
       if n = "default" then created_databases else created_databases ++ [n])

/-!
### `SqlType`: value classification and rendering
-/

/-- Which of the three `sql_repr` closures a `SqlType` carries. -/
inductive ReprKind where
  | unquoted
  | quoted
  | boolean
deriving DecidableEq, Repr

/-- An SQL type's name and its value-representation rule
(`SqlType.__init__`: the classification cascade, first match wins). -/
structure SqlType where
  name : String
  reprKind : ReprKind
deriving DecidableEq, Repr

/-- `SqlType.__init__(dbengine, value)`: classify a literal token.
(The stored engine matters only for Boolean rendering and is passed to
`get_value` separately.) -/
def sqlTypeOf (value : String) : SqlType :=
  let cs := value.toList
  if reIntegerMatch cs then ⟨"INTEGER", .unquoted⟩
  else if reRealMatch cs then ⟨"REAL", .unquoted⟩
  else if reDateMatch cs then ⟨"DATE", .quoted⟩
  else if reTimeMatch cs then ⟨"TIME", .quoted⟩
  else if reTimestampMatch cs then ⟨"TIMESTAMP", .quoted⟩
  else if reBooleanMatch cs then ⟨"BOOLEAN", .boolean⟩
  else ⟨"VARCHAR(255)", .quoted⟩

/-- `quoted_value`: `NULL` for the null literal, otherwise the value in
single quotes. -/
def quoted_value (val : String) : String :=
  if pyLower val = "null" then "NULL" else "\x27" ++ val ++ "\x27"

/-- `unquoted_value`: `NULL` for the null literal, otherwise the value
itself. -/
def unquoted_value (val : String) : String :=
  if pyLower val = "null" then "NULL" else val

/-- `SqlType.get_value`: render a value with the type's `sql_repr`. -/
def get_value (dbengine : DbEngine) (t : SqlType) (val : String) : String :=
  match t.reprKind with
  | .unquoted => unquoted_value val
  | .quoted => quoted_value val
  | .boolean => boolean_value dbengine val

/-!
### `create_table` and `insert_values`
-/

/-- The typed column definitions of a CREATE statement:
`n + ' ' + t.get_name() for n, t in zip(column_names, types)`. -/
def columnDefs (column_names : List String) (types : List SqlType) : List String :=
  List.zipWith (fun n t => n ++ " " ++ t.name) column_names types

/-- `create_table(dbengine, table_name, column_names, values, flag_order)`.
Returns the printed lines and either the inferred types or the message
of the exception the Python code raises (ordered mode, expected-result
table, engine without autoincrement support).  The DROP statement is
printed before the exception can be raised, as in the source. -/
def create_table (dbengine : DbEngine) (table_name : String)
    (column_names : List String) (values : String) (flag_order : Int) :
    List String × Except String (List SqlType) :=
  let out0 := ["DROP TABLE IF EXISTS " ++ table_name ++ ";"]
  let types := (shlexSplit values).map sqlTypeOf
  let out1 :=
    if flag_order = 1 then
      out0 ++ ["CREATE TABLE " ++ table_name ++ " (" ++
        String.intercalate ", " (columnDefs column_names types) ++ ");"]
    else out0
  if flag_order = -1 then
    if table_name = "test_expected" then
      match dbengine with
      | .mysql =>
        (out1, .error "BEGIN ORDERED RESULT not supported for DatabaseMySQL")
      | .postgresql =>
        (out1, .error "BEGIN ORDERED RESULT not supported for DatabasePostgreSQL")
      | .sqlite =>
        (out1 ++ ["--Auto increment internal column for DatabaseSQLite",
          "CREATE TABLE " ++ table_name ++ " (" ++
            "rn INTEGER PRIMARY KEY AUTOINCREMENT, " ++
            String.intercalate ", " (columnDefs column_names types) ++ ");"],
         .ok types)
    else
      (out1 ++ ["CREATE TABLE " ++ table_name ++ " (" ++
        String.intercalate ", " (columnDefs column_names types) ++ ");"],
       .ok types)
  else (out1, .ok types)

/-- The rendered value list of an INSERT statement:
`t.get_value(v) for v, t in zip(values, types)`. -/
def insertRendered (dbengine : DbEngine) (values : List String)
    (types : List SqlType) : List String :=
  List.zipWith (fun v t => get_value dbengine t v) values types

/-- `insert_values(table, types, line, dbengine, flag_order)`.  The
table argument is `Option String` because `process_test` can reach this
call with `table_name` still `None`, in which case Python crashes with a
`TypeError` while concatenating; that is the error value here. -/
def insert_values (table : Option String) (types : List SqlType)
    (line : String) (dbengine : DbEngine) (flag_order : Int) :
    Except String String :=
  let values := shlexSplit line
  let quoted_list :=
    String.intercalate ", " (insertRendered dbengine values types)
  match table with
  | none =>
    .error "TypeError: can only concatenate str (not \"NoneType\") to str"
  | some t =>
    if flag_order = -1 ∧ dbengine = .sqlite ∧ t = "test_expected" then
      .ok ("INSERT INTO " ++ t ++ " VALUES (" ++ "NULL," ++ quoted_list ++ ");")
    else
      .ok ("INSERT INTO " ++ t ++ " VALUES (" ++ quoted_list ++ ");")

/-!
### Table names and database references
-/

/-- `RE_DB_TABLESPEC.match(line)`:
`([A-Za-z_]\w*)\.([A-Za-z_]\w*)` anchored at the start; returns
group 1 (the database part) when the line starts with a qualified
`db.table` reference. -/
def matchDbTablespec (s : List Char) : Option String :=
  match s with
  | [] => none
  | c :: rest =>
    if isIdentStart c then
      match rest.dropWhile isWordCharB with
      | d :: e :: _ =>
        if d = '.' ∧ isIdentStart e then
          some (String.mk (c :: rest.takeWhile isWordCharB))
        else none
      | _ => none
    else none

/-- `test_table_name(line)`: the table name to use for a `name:`
header line — prefixed with `test_` only when the name is a qualified
`db.table` reference. -/
def test_table_name (line : String) : String :=
  if (matchDbTablespec line.toList).isSome then "test_" ++ dropLast1 line
  else dropLast1 line

/-!
### `verify_content`: the verdict emitter
-/

/-- Command-line flags and engine selection (`argparse` results). -/
structure Args where
  database : String
  existing_database : Bool
  results : Bool
  compare : Bool
deriving Repr

/-- The condition text of the emitted verdict (first `print` of
`verify_content`): one CASE condition comparing the row count of
`test_expected UNION case_name` with the counts of both sides. -/
def verifyConditionText (case_name : String) : String :=
  "\n        SELECT CASE WHEN\n" ++
  "          (SELECT COUNT(*) FROM (\n" ++
  "            SELECT * FROM test_expected\n" ++
  "            UNION\n" ++
  "            SELECT * FROM " ++ case_name ++ "\n" ++
  "          ) AS u1) = (SELECT COUNT(*) FROM test_expected) AND\n" ++
  "          (SELECT COUNT(*) FROM (\n" ++
  "            SELECT * FROM test_expected\n" ++
  "            UNION\n" ++
  "            SELECT * FROM " ++ case_name ++ "\n" ++
  "          ) AS u2) = (SELECT COUNT(*) FROM " ++ case_name ++ ")"

/-- The common tail of the two verdict lines:
`{number} - {test_name}: {case_name}`. -/
def verdictSuffix (number : Nat) (test_name case_name : String) : String :=
  toString number ++ " - " ++ test_name ++ ": " ++ case_name

/-- The `ok` verdict line produced by the emitted CASE statement. -/
def okLine (number : Nat) (test_name case_name : String) : String :=
  "ok " ++ verdictSuffix number test_name case_name

/-- The `not ok` verdict line produced by the emitted CASE statement. -/
def notOkLine (number : Nat) (test_name case_name : String) : String :=
  "not ok " ++ verdictSuffix number test_name case_name

/-- The THEN/ELSE text of the emitted verdict (second `print` of
`verify_content`). -/
def verifyThenElseText (number : Nat) (test_name case_name : String) : String :=
  "THEN \x27" ++ okLine number test_name case_name ++ "\x27 ELSE\n" ++
  "\x27" ++ notOkLine number test_name case_name ++ "\x27 END;\n"

/-- `verify_content(args, number, test_name, case_name)`: the verdict
statement, then the optional diagnostic statements. -/
def verify_content (args : Args) (number : Nat) (test_name case_name : String) :
    List String :=
  [verifyConditionText case_name, verifyThenElseText number test_name case_name] ++
  (if args.results then
    ["SELECT \x27Result set:\x27;",
     "SELECT * FROM " ++ case_name ++ ";"]
   else []) ++
  (if args.compare then
    ["SELECT \x27Non expected records in result set:\x27;",
     "SELECT * FROM " ++ case_name ++ " EXCEPT SELECT * FROM test_expected;",
     "SELECT \x27Missing records in result set:\x27;",
     "SELECT * FROM test_expected EXCEPT SELECT * FROM " ++ case_name ++ ";"]
   else [])

/-!
Semantics of the emitted CASE statement, for a test whose actual and
expected tables hold finite sets of rows (`SELECT *` on both sides of a
`UNION` of identically shaped tables; SQL `UNION` removes duplicates, so
each operand contributes its distinct rows and the union's count is the
cardinality of the set union).
-/

/-- Row count of `(SELECT * FROM test_expected UNION SELECT * FROM case)`. -/
def unionCount (expected actual : Finset ℕ) : Nat :=
  (expected ∪ actual).card

/-- Evaluation of the emitted CASE statement on concrete table
contents: the condition compares the union's row count with the row
count of each operand. -/
def verdictEval (number : Nat) (test_name case_name : String)
    (expected actual : Finset ℕ) : String :=
  if unionCount expected actual = expected.card ∧
     unionCount expected actual = actual.card then
    okLine number test_name case_name
  else notOkLine number test_name case_name

/-!
### The cross-database reference rewriter

`make_db_re` builds `\b(name1|name2|...)\.` (case-insensitive) from the
created databases with their `test_` prefixes stripped, and
`process_test` applies `db_re.sub(r'test_\1.', line)`.  The model scans
left to right, as `re.sub` does: at every position, if a word boundary
holds and some alternative followed by a dot matches case-insensitively,
the match is replaced by `test_` plus the matched spelling plus the dot
and scanning resumes after it; otherwise one character is copied.
-/

/-- `RE_NON_TEST.sub('', x)`: strip one leading `test_`. -/
def non_test (x : String) : String :=
  if x.toList.take 5 = "test_".toList then String.mk (x.toList.drop 5) else x

/-- Case-insensitive match of a pattern against a prefix of the input;
returns the matched spelling and the rest. -/
def caselessPrefixSp : List Char → List Char → Option (List Char × List Char)
  | [], s => some ([], s)
  | _ :: _, [] => none
  | p :: ps, c :: cs =>
    if eqCaseless c p then
      (caselessPrefixSp ps cs).map (fun pr => (c :: pr.1, pr.2))
    else none

/-- Try the alternatives of the group in order; each must be followed by
a literal dot (which sits outside the group, so a failing dot lets the
next alternative try, as regex backtracking does). -/
def try_names_dot (names : List String) (s : List Char) :
    Option (List Char × List Char) :=
  match names with
  | [] => none
  | n :: ns =>
    match caselessPrefixSp n.toList s with
    | some (sp, '.' :: r2) => some (sp, r2)
    | _ => try_names_dot ns s

/-- Wordness of an optional character (`\b` treats the string edge as a
non-word position). -/
def wordish : Option Char → Bool
  | none => false
  | some c => isWordCharB c

/-- Python `\b` at the position between `prev` and the head of `s`. -/
def boundaryB (prev : Option Char) (s : List Char) : Bool :=
  wordish prev != wordish s.head?

/-- The substitution scan of `db_re.sub(r'test_\1.', line)`:
copy characters, but at a word boundary where an alternative followed by
a dot matches, emit `test_`, the matched spelling and the dot, and
resume after the match.  A match consumes at least the dot, so the
remaining input always shrinks; the fuel (initially the input length)
therefore never runs out. -/
def db_sub_aux (names : List String) : Nat → Option Char → List Char →
    List Char
  | 0, _, s => s
  | fuel + 1, prev, s =>
    match s with
    | [] => []
    | c :: rest =>
      if boundaryB prev (c :: rest) then
        match try_names_dot names (c :: rest) with
        | some (sp, r) =>
          't' :: 'e' :: 's' :: 't' :: '_' ::
            (sp ++ '.' :: db_sub_aux names fuel (some '.') r)
        | none => c :: db_sub_aux names fuel (some c) rest
      else c :: db_sub_aux names fuel (some c) rest

/-- `db_re.sub(r'test_\1.', line)` for the compiled expression built by
`make_db_re` from the given (already `test_`-stripped) names. -/
def dbLineSub (ntNames : List String) (line : String) : String :=
  String.mk (db_sub_aux ntNames line.toList.length none line.toList)

/-- Does the string still contain a word-boundary, case-insensitive
occurrence of one of the names followed by a dot (i.e. a position where
`db_re` would match)? -/
def has_residual (names : List String) (prev : Option Char) :
    List Char → Bool
  | [] => false
  | c :: rest =>
    (boundaryB prev (c :: rest) && (try_names_dot names (c :: rest)).isSome)
    || has_residual names (some c) rest

/-- The `-- Database RE: ...` line printed by `make_db_re`, emitted only
when at least one database was referenced. -/
def makeDbReOut (dbs : List String) : List String :=
  if dbs ≠ [] then
    ["-- Database RE: \\b(" ++
      String.intercalate "|" (dbs.map non_test) ++ ")\\."]
  else []

/-!
### `extract_order_by_clauses`: the pyparsing grammar

```
order_by_clause = CaselessKeyword("ORDER") + CaselessKeyword("BY")
                + Group(delimitedList(order_term, delim=", "))
order_term = Group(column_name + Optional(ASC | DESC, default="ASC"))
column_name = Word(alphas + "_", alphanums + "_")
```
searched with `searchString`.  The model follows pyparsing's behaviour:
each element skips leading whitespace (space, tab, newline); a
`CaselessKeyword` requires non-keyword characters (keyword characters
are alphanumerics, `_` and `$`) on both sides and yields its canonical
spelling; the delimiter is the literal two-character string `", "`;
`searchString` scans left to right, resuming after each match.
-/

/-- pyparsing's default whitespace characters. -/
def pypWs (c : Char) : Bool := c = ' ' || c = '\n' || c = '\t'

/-- pyparsing's default `Keyword` identifier characters. -/
def kwChar (c : Char) : Bool := c.isAlphanum || c = '_' || c = '$'

/-- Skip leading whitespace, tracking the previously consumed
character (needed for keyword boundaries). -/
def pSkipWs : Option Char → List Char → Option Char × List Char
  | prev, [] => (prev, [])
  | prev, c :: rest =>
    if pypWs c then pSkipWs (some c) rest else (prev, c :: rest)

/-- Is the position before the keyword a valid keyword start
(start of input or a non-keyword character)? -/
def kwBoundaryBefore : Option Char → Bool
  | none => true
  | some c => !kwChar c

/-- Is the position after the keyword a valid keyword end? -/
def kwBoundaryAfter : List Char → Bool
  | [] => true
  | c :: _ => !kwChar c

/-- `CaselessKeyword(kw)`: skip whitespace, match the keyword
case-insensitively with boundaries on both sides.  Returns the new
previous-character and the rest. -/
def pCaselessKeyword (kw : String) (prev : Option Char) (s : List Char) :
    Option (Option Char × List Char) :=
  let (p, s1) := pSkipWs prev s
  if kwBoundaryBefore p then
    match caselessPrefixSp kw.toList s1 with
    | some (sp, r) =>
      if kwBoundaryAfter r then
        some (match sp.getLast? with | some c => some c | none => p, r)
      else none
    | none => none
  else none

/-- `Word(alphas + "_", alphanums + "_")`: a column name. -/
def pWordColumn (prev : Option Char) (s : List Char) :
    Option (String × Option Char × List Char) :=
  let (_, s1) := pSkipWs prev s
  match s1 with
  | c :: rest =>
    if c.isAlpha || c = '_' then
      let body := rest.takeWhile (fun d => d.isAlphanum || d = '_')
      some (String.mk (c :: body),
            some (body.getLastD c),
            rest.dropWhile (fun d => d.isAlphanum || d = '_'))
    else none
  | [] => none

/-- `order_term`: a column name with an optional ASC/DESC keyword,
defaulting to ASC (keywords yield their canonical spelling). -/
def pOrderTerm (prev : Option Char) (s : List Char) :
    Option ((String × String) × Option Char × List Char) :=
  match pWordColumn prev s with
  | none => none
  | some (col, p1, s1) =>
    match pCaselessKeyword "ASC" p1 s1 with
    | some (p2, s2) => some ((col, "ASC"), p2, s2)
    | none =>
      match pCaselessKeyword "DESC" p1 s1 with
      | some (p2, s2) => some ((col, "DESC"), p2, s2)
      | none => some ((col, "ASC"), p1, s1)

/-- `Literal(", ")`, the delimiter of `delimitedList` (whitespace is
skipped before a literal, then the two characters must match exactly). -/
def pLiteralCommaSpace (prev : Option Char) (s : List Char) :
    Option (Option Char × List Char) :=
  let (_, s1) := pSkipWs prev s
  match s1 with
  | c :: d :: rest =>
    if c = ',' ∧ d = ' ' then some (some ' ', rest) else none
  | _ => none

/-- The `ZeroOrMore(delim + order_term)` tail of `delimitedList`: stop
(without consuming the delimiter) as soon as delimiter-plus-term fails. -/
def pMoreTerms (fuel : Nat) (prev : Option Char) (s : List Char) :
    List (String × String) × Option Char × List Char :=
  match fuel with
  | 0 => ([], prev, s)
  | fuel + 1 =>
    match pLiteralCommaSpace prev s with
    | none => ([], prev, s)
    | some (p1, s1) =>
      match pOrderTerm p1 s1 with
      | none => ([], prev, s)
      | some (t, p2, s2) =>
        let (ts, p3, s3) := pMoreTerms fuel p2 s2
        (t :: ts, p3, s3)

/-- One attempt to parse the whole `order_by_clause` at the current
position. -/
def pOrderByClause (fuel : Nat) (prev : Option Char) (s : List Char) :
    Option (List (String × String) × Option Char × List Char) :=
  match pCaselessKeyword "ORDER" prev s with
  | none => none
  | some (p1, s1) =>
    match pCaselessKeyword "BY" p1 s1 with
    | none => none
    | some (p2, s2) =>
      match pOrderTerm p2 s2 with
      | none => none
      | some (t, p3, s3) =>
        let (ts, p4, s4) := pMoreTerms fuel p3 s3
        some (t :: ts, p4, s4)

/-- `searchString`: scan the input, collecting every (non-overlapping)
clause match, resuming after each match. -/
def scanOrderBy (fuel : Nat) (prev : Option Char) (s : List Char) :
    List (List (String × String)) :=
  match fuel with
  | 0 => []
  | fuel + 1 =>
    match s with
    | [] => []
    | c :: rest =>
      match pOrderByClause s.length prev s with
      | some (ts, p1, s1) => ts :: scanOrderBy fuel p1 s1
      | none => scanOrderBy fuel (some c) rest

/-- All ORDER BY clause matches of `order_by_clause.searchString`. -/
def searchOrderBy (sql_text : String) : List (List (String × String)) :=
  scanOrderBy (sql_text.length + 1) none sql_text.toList

/-- The reassembly loop at the end of `extract_order_by_clauses`:
starting from `'ORDER BY'`, append `' {column} {direction},'` for each
term of the *last* clause only, but chop the final character once per
clause (`order_by_command[:-1]` sits inside the outer loop). -/
def reassembleOrderBy (n : Nat) (idx : Nat) (cmd : String) :
    List (List (String × String)) → String
  | [] => cmd
  | ob :: rest =>
    reassembleOrderBy n (idx + 1)
      (dropLast1 (ob.foldl (fun c t =>
          if idx = n then c ++ " " ++ t.1 ++ " " ++ t.2 ++ "," else c) cmd))
      rest

/-- `extract_order_by_clauses(sql_text)`. -/
def extract_order_by_clauses (sql_text : String) : String :=
  let results := searchOrderBy sql_text
  reassembleOrderBy results.length 1 "ORDER BY" results

/-!
### The script state machine (`process_test`)
-/

/-- `RE_INCLUDE_CREATE` / `RE_INCLUDE_SELECT`:
`INCLUDE\s+<kw>\s+(.*)$`, anchored at the start; returns the file-name
group. -/
def matchInclude (kw : String) (line : String) : Option String :=
  let s := line.toList
  if s.take 7 = "INCLUDE".toList then
    match s.drop 7 with
    | c :: rest =>
      if c.isWhitespace then
        let s1 := rest.dropWhile Char.isWhitespace
        if s1.take kw.length = kw.toList then
          match s1.drop kw.length with
          | d :: rest2 =>
            if d.isWhitespace then
              some (String.mk (rest2.dropWhile Char.isWhitespace))
            else none
          | [] => none
        else none
      else none
    | [] => none
  else none

/-- The message of `syntax_error(line_number, state, reason)`. -/
def syntaxErrMsg (line_number : Nat) (state reason : String) : String :=
  "Syntax error on line " ++ toString line_number ++ ": " ++ reason ++
    " (state: " ++ state ++ ")"

/-- `create_databases(dbengine, test_spec, created_databases)`: pre-scan
every line for a leading `db.table` reference and create each referenced
database once. -/
def create_databases (dbengine : DbEngine) (test_spec : List String)
    (created : List String) : List String × List String :=
  match test_spec with
  | [] => ([], created)
  | l :: rest =>
    match matchDbTablespec l.toList with
    | some db =>
      let (out1, created1) := create_database dbengine created (some ("test_" ++ db))
      let (out2, created2) := create_databases dbengine rest created1
      (out1 ++ out2, created2)
    | none => create_databases dbengine rest created

/-- The emission of the `sql` state for a non-`END` line: apply the
cross-database rewrite, then either echo the line (plain mode) or, in
ordered mode, splice a `ROW_NUMBER()` rank projection after the first
six characters — with the extracted ORDER BY context if the line
contains `'ORDER BY'`, the constant `ORDER BY 1` otherwise. -/
def sql_state_emit (ntNames : List String) (flag_order : Int) (rawLine : String) :
    List String :=
  let line := dbLineSub ntNames rawLine
  (if flag_order = 1 then [line] else []) ++
  (if flag_order = -1 then
    (if strContains line "ORDER BY" then
      [strTake line 6 ++ " ROW_NUMBER() " ++
        "OVER(" ++ extract_order_by_clauses line ++ ") AS RN," ++ strDrop line 6]
     else []) ++
    (if ¬ (strContains line "ORDER BY" = true) then
      [strTake line 6 ++ " ROW_NUMBER() OVER(ORDER BY 1) AS RN," ++ strDrop line 6]
     else [])
   else [])

/-- The processing environment fixed for one `process_test` run. -/
structure PEnv where
  args : Args
  dbengine : DbEngine
  test_name : String
  /-- The created-databases list produced by the pre-scan. -/
  created : List String
  /-- The alternatives of the compiled `db_re` (names stripped of
  `test_`). -/
  ntNames : List String
  flag_order : Int
  /-- Output of `process_sql` for an included file: the branch reads an
  external file, so its emission is a parameter of the model. -/
  incSql : String → List String → List String

/-- The mutable locals of `process_test`'s loop.  `tableName` and
`tstKind` distinguish Python's *unbound* variable (`none`) from a
variable holding `None` (`some none`). -/
structure PState where
  state : String
  test_number : Nat
  table_created : Bool
  column_names : List String
  tableName : Option (Option String)
  tstKind : Option (Option String)
  prevState : Option String
  types : List SqlType

/-- One non-skipped line of `process_test`'s loop body. -/
def handleLine (env : PEnv) (line : String) (line_number : Nat) (st : PState) :
    List String × Except String PState :=
  if st.state = "initial" then
    let out0 := ["\n-- " ++ line]
    if line = "BEGIN SETUP" then
      (out0, .ok { st with state := "setup", tableName := some none })
    else if line = "BEGIN CREATE" then
      (out0, .ok { st with tstKind := some (some "create"), state := "sql" })
    else if line = "BEGIN SELECT" then
      (out0 ++ ["CREATE VIEW test_select_result AS"],
       .ok { st with tstKind := some (some "select"), state := "sql" })
    else
      match matchInclude "SELECT" line with
      | some f =>
        (out0 ++ db_create_view env.dbengine "test_select_result" ++
          makeDbReOut env.created ++ env.incSql f env.ntNames,
         .ok { st with tstKind := some (some "select") })
      | none =>
        match matchInclude "CREATE" line with
        | some f =>
          (out0 ++ makeDbReOut env.created ++ env.incSql f env.ntNames,
           .ok { st with tstKind := some (some "create") })
        | none =>
          if line = "BEGIN RESULT" ∨ line = "BEGIN ORDERED RESULT" then
            match st.tstKind with
            | none =>
              (out0, .error "NameError: name \x27test_statement_type\x27 is not defined")
            | some k =>
              if k = some "select" then
                (out0, .ok { st with
                              tableName := some (some "test_select_result"),
                              state := "table_columns",
                              prevState := some "result",
                              tstKind := some none })
              else if k = some "create" then
                (out0, .ok { st with state := "result", tstKind := some none })
              else
                (out0, .error (syntaxErrMsg line_number "initial"
                  "CREATE or SELECT not specified"))
          else
            (out0, .error (syntaxErrMsg line_number "initial"
              ("Unknown statement: " ++ line)))
  else if st.state = "setup" then
    if line = "END" then
      ([], .ok { st with state := "initial", tableName := some none })
    else if line.toList.getLast? = some ':' then
      ([], .ok { st with tableName := some (some (test_table_name line)),
                         state := "table_columns",
                         prevState := some "setup" })
    else
      if ¬ st.table_created then
        match st.tableName with
        | none => ([], .error "NameError: name \x27table_name\x27 is not defined")
        | some none =>
          ([], .error (syntaxErrMsg line_number "setup"
            "Attempt to provide data without specifying a table name"))
        | some (some nm) =>
          if nm = "" then
            ([], .error (syntaxErrMsg line_number "setup"
              "Attempt to provide data without specifying a table name"))
          else
            let (out, res) := create_table env.dbengine nm st.column_names line
              env.flag_order
            match res with
            | .error e => (out, .error e)
            | .ok types =>
              match insert_values (some nm) types line env.dbengine env.flag_order with
              | .ok ins =>
                (out ++ [ins], .ok { st with table_created := true, types := types })
              | .error e => (out, .error e)
      else
        match st.tableName with
        | none => ([], .error "NameError: name \x27table_name\x27 is not defined")
        | some tn =>
          match insert_values tn st.types line env.dbengine env.flag_order with
          | .ok ins => ([ins], .ok st)
          | .error e => ([], .error e)
  else if st.state = "sql" then
    if line = "END" then ([], .ok { st with state := "initial" })
    else (sql_state_emit env.ntNames env.flag_order line, .ok st)
  else if st.state = "table_columns" then
    match st.prevState with
    | none => ([], .error "NameError: name \x27prev_state\x27 is not defined")
    | some ps =>
      ([], .ok { st with column_names := pySplit line, state := ps,
                         table_created := false })
  else if st.state = "result" then
    if line = "END" then
      match st.tableName with
      | none => ([], .error "NameError: name \x27table_name\x27 is not defined")
      | some none =>
        ([], .error (syntaxErrMsg line_number "result"
          "Attempt to provide data without specifying a table name"))
      | some (some nm) =>
        if nm = "" then
          ([], .error (syntaxErrMsg line_number "result"
            "Attempt to provide data without specifying a table name"))
        else if ¬ st.table_created then
          let (out, res) := create_table env.dbengine "test_expected"
            st.column_names (String.intercalate " " st.column_names) env.flag_order
          match res with
          | .error e => (out, .error e)
          | .ok types =>
            (out ++ verify_content env.args st.test_number env.test_name nm,
             .ok { st with table_created := true, types := types,
                           test_number := st.test_number + 1,
                           state := "initial" })
        else
          (verify_content env.args st.test_number env.test_name nm,
           .ok { st with test_number := st.test_number + 1, state := "initial" })
    else if line.toList.getLast? = some ':' then
      ([], .ok { st with tableName := some (some (test_table_name line)),
                         state := "table_columns",
                         prevState := some "result" })
    else
      if ¬ st.table_created then
        let (out, res) := create_table env.dbengine "test_expected"
          st.column_names line env.flag_order
        match res with
        | .error e => (out, .error e)
        | .ok types =>
          match insert_values (some "test_expected") types line env.dbengine
              env.flag_order with
          | .ok ins =>
            (out ++ [ins], .ok { st with table_created := true, types := types })
          | .error e => (out, .error e)
      else
        match insert_values (some "test_expected") st.types line env.dbengine
            env.flag_order with
        | .ok ins => ([ins], .ok st)
        | .error e => ([], .error e)
  else ([], .error ("Invalid state: " ++ st.state))

/-- The loop of `process_test`: skip blank and comment lines, process
the rest, stop at the first fatal error (keeping the output printed so
far). -/
def stepLines (env : PEnv) : List String → Nat → PState →
    List String × Except String PState
  | [], _, st => ([], .ok st)
  | l :: rest, line_number0, st =>
    let line_number := line_number0 + 1
    let line := rstrip l
    if line = "" ∨ line.toList.take 1 = ['#'] then stepLines env rest line_number st
    else
      let (out, r) := handleLine env line line_number st
      match r with
      | .ok st1 =>
        let (out2, res) := stepLines env rest line_number st1
        (out ++ out2, res)
      | .error e => (out, .error e)

/-- `process_test(args, dbengine, test_name, test_spec)`. -/
def process_test (args : Args) (dbengine : DbEngine) (test_name : String)
    (test_spec : List String)
    (incSql : String → List String → List String) :
    List String × Except String Unit :=
  let flag_order : Int :=
    if "BEGIN ORDERED RESULT" ∈
        (test_spec.map pyStrip).filter (fun s => s ≠ "") then -1 else 1
  let (dbOut, created) := create_databases dbengine test_spec []
  let reOut := makeDbReOut created
  let env : PEnv := { args := args, dbengine := dbengine,
                      test_name := test_name, created := created,
                      ntNames := created.map non_test,
                      flag_order := flag_order, incSql := incSql }
  let st0 : PState := { state := "initial", test_number := 1,
                        table_created := false, column_names := [],
                        tableName := none, tstKind := none,
                        prevState := none, types := [] }
  let (out, res) := stepLines env test_spec 0 st0
  match res with
  | .error e => (dbOut ++ reOut ++ out, .error e)
  | .ok st =>
    if st.state ≠ "initial" then
      (dbOut ++ reOut ++ out, .error ("Unterminated state: " ++ st.state))
    else
      (dbOut ++ reOut ++ out ++
        ["SELECT \x271.." ++ toString (st.test_number - 1) ++ "\x27;"],
       .ok ())

/-- `create_test_cases(args, test_name, file_input)`; `rolapdb` models
the `ROLAPDB` environment variable. -/
def create_test_cases (args : Args) (rolapdb : Option String)
    (test_name : String) (file_input : List String)
    (incSql : String → List String → List String) :
    List String × Except String Unit :=
  let out0 := ["-- Input from " ++ test_name]
  let eng : Except String DbEngine :=
    if args.database = "mysql" then .ok .mysql
    else if args.database = "postgresql" then .ok .postgresql
    else if args.database = "sqlite" then .ok .sqlite
    else .error ("Unsupported database: " ++ args.database)
  match eng with
  | .error e => (out0, .error e)
  | .ok dbengine =>
    let out1 := out0 ++ engine_init dbengine
    let out2 :=
      if ¬ args.existing_database then
        let database_name :=
          match rolapdb with
          | some s => if s = "" then "test_default" else s
          | none => "test_default"
        out1 ++ (create_database dbengine [] (some database_name)).1 ++
          db_use dbengine database_name
      else out1
    let (out3, res) := process_test args dbengine test_name file_input incSql
    (out2 ++ out3, res)

/-!
## Claim theorems
-/

/-- Equality of transpiler results (output lines paired with the exit
condition) is decidable, so concrete runs can be checked by `decide`. -/
instance : DecidableEq (Except String Unit) := fun a b =>
  match a, b with
  | .ok (), .ok () => .isTrue rfl
  | .error x, .error y =>
    if h : x = y then .isTrue (by rw [h]) else .isFalse (by simp [h])
  | .ok _, .error _ => .isFalse (by simp)
  | .error _, .ok _ => .isFalse (by simp)

/-- The claim C1 test script: a SETUP block declaring table `t` with
columns `id name` and the single data row `1 Alice`. -/
def c1Script : List String :=
  ["BEGIN SETUP\n", "t:\n", "id name\n", "1 Alice\n", "END\n"]

/-- Default arguments: MySQL engine, no flags. -/
def defaultArgs : Args := ⟨"mysql", false, false, false⟩

/-- The empty included-file model (no INCLUDE line occurs in the
scripts processed by the theorems). -/
def noInc : String → List String → List String := fun _ _ => []

/-- The claim C5/C6 test script: an embedded CREATE block containing the
non-SELECT line `FROM x`, with ordered mode activated by a later
`BEGIN ORDERED RESULT` block (SQLite engine, which supports it). -/
def c5Script : List String :=
  ["BEGIN CREATE\n", "FROM x\n", "END\n", "BEGIN ORDERED RESULT\n",
   "t:\n", "id\n", "1\n", "END\n"]

/-- The claim C8 test script: references the database `default`, whose
test counterpart is also the namespace created up-front by
`create_test_cases`. -/
def c8Script : List String :=
  ["BEGIN SETUP\n", "default.t:\n", "id\n", "1\n", "END\n"]

/-- The claim C9 test script: a completed SETUP block followed by a
second SETUP block whose first line is a data row while no table name
has been declared. -/
def c9Script : List String :=
  ["BEGIN SETUP\n", "t:\n", "id\n", "1\n", "END\n", "BEGIN SETUP\n", "2\n", "END\n"]

/-- The text the reassembly loop produces after `ORDER BY` for the
terms of the last clause: a space, the column, a space, the direction,
comma-separated. -/
def orderByTermsText : List (String × String) → String
  | [] => ""
  | [t] => " " ++ t.1 ++ " " ++ t.2
  | t :: t2 :: ts => " " ++ t.1 ++ " " ++ t.2 ++ "," ++ orderByTermsText (t2 :: ts)

theorem caselessPrefixSp_spec (p : List Char) :
    ∀ (s sp r : List Char), caselessPrefixSp p s = some (sp, r) →
      s = sp ++ r ∧ sp.map lcVal = p.map lcVal := by
  induction p with
  | nil =>
    intro s sp r h
    simp only [caselessPrefixSp, Option.some.injEq, Prod.mk.injEq] at h
    obtain ⟨h1, h2⟩ := h
    subst h1
    subst h2
    exact ⟨rfl, rfl⟩
  | cons p ps ih =>
    intro s sp r h
    cases s with
    | nil => simp [caselessPrefixSp] at h
    | cons c cs =>
      simp only [caselessPrefixSp] at h
      by_cases hc : eqCaseless c p
      · rw [if_pos hc] at h
        cases hm : caselessPrefixSp ps cs with
        | none => rw [hm] at h; simp at h
        | some pr =>
          obtain ⟨sp2, r2⟩ := pr
          rw [hm] at h
          simp only [Option.map_some', Option.some.injEq, Prod.mk.injEq] at h
          obtain ⟨h1, h2⟩ := h
          obtain ⟨ha, hb⟩ := ih cs sp2 r2 hm
          subst h2
          rw [← h1]
          refine ⟨by simp [ha], ?_⟩
          simp only [List.map_cons, hb]
          have : lcVal c = lcVal p := by simpa [eqCaseless] using hc
          rw [this]
      · rw [if_neg hc] at h; simp at h

theorem try_names_dot_decomp (names : List String) (s : List Char)
    (sp r : List Char) (h : try_names_dot names s = some (sp, r)) :
    ∃ n, n ∈ names ∧ s = sp ++ '.' :: r ∧
      sp.map lcVal = n.toList.map lcVal := by
  induction names with
  | nil => simp [try_names_dot] at h
  | cons n ns ih =>
    rw [try_names_dot] at h
    split at h
    · next sp' r2 heq =>
      simp only [Option.some.injEq, Prod.mk.injEq] at h
      obtain ⟨h1, h2⟩ := h
      obtain ⟨ha, hb⟩ := caselessPrefixSp_spec n.toList s sp' ('.' :: r2) heq
      rw [h1, h2] at ha
      rw [h1] at hb
      exact ⟨n, List.mem_cons_self .., ha, hb⟩
    · next =>
      obtain ⟨m, hm1, hm2, hm3⟩ := ih h
      exact ⟨m, List.mem_cons_of_mem _ hm1, hm2, hm3⟩

theorem try_names_dot_length (names : List String) (s : List Char)
    (sp r : List Char) (h : try_names_dot names s = some (sp, r)) :
    r.length < s.length := by
  obtain ⟨n, _, h2, _⟩ := try_names_dot_decomp names s sp r h
  subst h2
  simp
  omega

/-- C1 (counterexample): processing the SETUP block for table `t` with
columns `id name` and row `1 Alice` emits *none* of the three statements
the claim spells out: the unqualified name `t` does not receive the
`test_` prefix, and the CREATE has a space before the column list. -/
theorem c1_counterexample :
    "DROP TABLE IF EXISTS test_t;" ∉ (process_test defaultArgs .mysql "x" c1Script noInc).1 ∧
    "CREATE TABLE test_t(id INTEGER, name VARCHAR(255));" ∉
      (process_test defaultArgs .mysql "x" c1Script noInc).1 ∧
    "INSERT INTO test_t VALUES (1, \x27Alice\x27);" ∉
      (process_test defaultArgs .mysql "x" c1Script noInc).1 := by
  refine ⟨?_, ?_, ?_⟩ <;> decide

/-- C1 (amended): processing that SETUP block emits exactly
`DROP TABLE IF EXISTS t;`, `CREATE TABLE t (id INTEGER, name VARCHAR(255));`
and `INSERT INTO t VALUES (1, 'Alice');` — the unqualified declared name
is used as-is (only `db.table` names receive the `test_` prefix) and the
CREATE statement has a space before the parenthesized column list.  The
only other output lines are the `-- BEGIN SETUP` echo comment and the
final test-count statement. -/
theorem c1_amended :
    process_test defaultArgs .mysql "x" c1Script noInc =
      (["\n-- BEGIN SETUP",
        "DROP TABLE IF EXISTS t;",
        "CREATE TABLE t (id INTEGER, name VARCHAR(255));",
        "INSERT INTO t VALUES (1, \x27Alice\x27);",
        "SELECT \x271..0\x27;"], .ok ()) := by
  decide

/-- C3 (code bug): the literal `2024-01-02 10:11:12` is classified as
`VARCHAR(255)` (quoted), not `TIMESTAMP`: `RE_TIMESTAMP` has a stray `$`
in mid-pattern (`\d{4}-\d\d-\d\d$ \d+:\d+:\d+$`), so it requires the end
of the string immediately after the date *and* a space-and-time to
follow, which is impossible — the matcher rejects every input. -/
theorem c3_timestamp_bug :
    sqlTypeOf "2024-01-02 10:11:12" = ⟨"VARCHAR(255)", .quoted⟩ ∧
    get_value .mysql (sqlTypeOf "2024-01-02 10:11:12") "2024-01-02 10:11:12" =
      "\x272024-01-02 10:11:12\x27" ∧
    ∀ s : List Char, reTimestampMatch s = false := by
  refine ⟨by decide, by decide, ?_⟩
  intro s
  unfold reTimestampMatch
  cases h : consumeDatePart s with
  | none => rfl
  | some rest =>
    cases rest with
    | nil => rfl
    | cons c rest2 =>
      cases rest2 with
      | nil =>
        by_cases hc : c = '\n'
        · subst hc; rfl
        · simp [isEndAnchor, hc]
      | cons d rest3 => rfl

/-- C10 (confirmed): when a data row's token count differs from the
declared column count, no error is raised; the CREATE statement lists
`min(#columns, #tokens)` typed columns and every INSERT renders
`min(#tokens, #types)` values, silently dropping the excess (the `zip`
truncation in `create_table` and `insert_values`). -/
theorem c10_zip_truncation :
    ∀ (e : DbEngine) (name : String) (cols : List String) (vals row : String),
      create_table e name cols vals 1 =
        (["DROP TABLE IF EXISTS " ++ name ++ ";",
          "CREATE TABLE " ++ name ++ " (" ++
            String.intercalate ", "
              (columnDefs cols ((shlexSplit vals).map sqlTypeOf)) ++ ");"],
         .ok ((shlexSplit vals).map sqlTypeOf)) ∧
      (columnDefs cols ((shlexSplit vals).map sqlTypeOf)).length =
        min cols.length (shlexSplit vals).length ∧
      (∀ types : List SqlType,
        (insertRendered e (shlexSplit row) types).length =
          min (shlexSplit row).length types.length) ∧
      insert_values (some name) ((shlexSplit vals).map sqlTypeOf) row e 1 =
        .ok ("INSERT INTO " ++ name ++ " VALUES (" ++
          String.intercalate ", "
            (insertRendered e (shlexSplit row) ((shlexSplit vals).map sqlTypeOf)) ++
          ");") := by
  intro e name cols vals row
  refine ⟨?_, ?_, ?_, ?_⟩
  · simp [create_table]
  · simp [columnDefs]
  · intro types; simp [insertRendered]
  · simp [insert_values]

theorem ok_prefix_ne (s : String) : ("ok " ++ s) ≠ ("not ok " ++ s) := by
  intro h
  have h2 := congrArg String.length h
  rw [String.length_append, String.length_append] at h2
  have e1 : ("ok " : String).length = 3 := rfl
  have e2 : ("not ok " : String).length = 7 := rfl
  rw [e1, e2] at h2
  omega

/-- C2 (confirmed): with the diagnostic flags off, `verify_content`
emits exactly the one CASE statement (its two `print` calls: the
condition text and the THEN/ELSE text), and the statement's evaluation
on concrete table contents yields the `ok` line exactly when the row
count of `test_expected UNION <case>` equals the row count of
`test_expected` and also equals the row count of `<case>`; a complete
test case (statement block plus RESULT block for table `t`) emits that
verdict with test number 1. -/
theorem c2_verdict :
    (∀ (number : Nat) (test_name case_name : String),
      verify_content ⟨"mysql", false, false, false⟩ number test_name case_name =
        [verifyConditionText case_name,
         verifyThenElseText number test_name case_name] ∧
      ∀ expected actual : Finset ℕ,
        (verdictEval number test_name case_name expected actual =
            okLine number test_name case_name ↔
          unionCount expected actual = expected.card ∧
          unionCount expected actual = actual.card)) ∧
    verifyConditionText "t" ∈
      (process_test defaultArgs .mysql "x"
        ["BEGIN CREATE\n", "X\n", "END\n", "BEGIN RESULT\n",
         "t:\n", "id\n", "1\n", "END\n"] noInc).1 ∧
    verifyThenElseText 1 "x" "t" ∈
      (process_test defaultArgs .mysql "x"
        ["BEGIN CREATE\n", "X\n", "END\n", "BEGIN RESULT\n",
         "t:\n", "id\n", "1\n", "END\n"] noInc).1 := by
  refine ⟨fun n t c => ?_, by decide, by decide⟩
  refine ⟨by simp [verify_content], fun e a => ?_⟩
  unfold verdictEval
  split
  · next hcond => exact iff_of_true rfl hcond
  · next hcond =>
    refine iff_of_false (fun hh => ?_) hcond
    exact ok_prefix_ne (verdictSuffix n t c) hh.symm

theorem rowNumberMergeAux (a b : String) :
    a ++ " ROW_NUMBER() " ++ "OVER(" ++ b = a ++ " ROW_NUMBER() OVER(" ++ b := by
  rw [String.append_assoc a " ROW_NUMBER() " "OVER("]
  rfl

/-- C4 (confirmed): in ordered mode, creating the expected-result table
fails with the explicit "BEGIN ORDERED RESULT not supported" error under
MySQL and PostgreSQL (the DROP having been printed first, as in the
source); under SQLite it succeeds and the CREATE gains the leading
`rn INTEGER PRIMARY KEY AUTOINCREMENT` rank column; every rewritten
embedded line that is a SELECT carries `ROW_NUMBER() OVER(...)` spliced
after the `SELECT` keyword; and a whole ordered-mode run under MySQL
halts with exactly that error. -/
theorem c4_ordered_gate :
    (∀ (cols : List String) (vals : String),
      create_table .mysql "test_expected" cols vals (-1) =
        (["DROP TABLE IF EXISTS test_expected;"],
         .error "BEGIN ORDERED RESULT not supported for DatabaseMySQL")) ∧
    (∀ (cols : List String) (vals : String),
      create_table .postgresql "test_expected" cols vals (-1) =
        (["DROP TABLE IF EXISTS test_expected;"],
         .error "BEGIN ORDERED RESULT not supported for DatabasePostgreSQL")) ∧
    (∀ (cols : List String) (vals : String),
      create_table .sqlite "test_expected" cols vals (-1) =
        (["DROP TABLE IF EXISTS test_expected;",
          "--Auto increment internal column for DatabaseSQLite",
          "CREATE TABLE test_expected (rn INTEGER PRIMARY KEY AUTOINCREMENT, " ++
            String.intercalate ", "
              (columnDefs cols ((shlexSplit vals).map sqlTypeOf)) ++ ");"],
         .ok ((shlexSplit vals).map sqlTypeOf))) ∧
    (∀ (ntNames : List String) (line : String),
      strTake (dbLineSub ntNames line) 6 = "SELECT" → ∃ arg,
        sql_state_emit ntNames (-1) line =
          [strTake (dbLineSub ntNames line) 6 ++ " ROW_NUMBER() OVER(" ++ arg ++
            ") AS RN," ++ strDrop (dbLineSub ntNames line) 6]) ∧
    (process_test defaultArgs .mysql "x"
        ["BEGIN CREATE\n", "SELECT 1\n", "END\n", "BEGIN ORDERED RESULT\n",
         "t:\n", "id\n", "1\n", "END\n"] noInc).2 =
      .error "BEGIN ORDERED RESULT not supported for DatabaseMySQL" := by
  refine ⟨?_, ?_, ?_, ?_, by decide⟩
  · intro cols vals; simp [create_table]
  · intro cols vals; simp [create_table]
  · intro cols vals; simp [create_table]
  · intro nt line _
    by_cases hc : strContains (dbLineSub nt line) "ORDER BY"
    · refine ⟨extract_order_by_clauses (dbLineSub nt line), ?_⟩
      simp only [sql_state_emit, hc]
      norm_num
      rw [rowNumberMergeAux]
    · refine ⟨"ORDER BY 1", ?_⟩
      simp only [sql_state_emit, hc]
      norm_num
      simp only [String.append_assoc]
      rfl

/-- C4 witness: the SELECT-shaped conjunct of `c4_ordered_gate` applied
to the concrete line `SELECT * FROM t` with no referenced databases. -/
theorem c4_ordered_gate_witness :
    ∃ arg, sql_state_emit [] (-1) "SELECT * FROM t" =
      [strTake (dbLineSub [] "SELECT * FROM t") 6 ++ " ROW_NUMBER() OVER(" ++
        arg ++ ") AS RN," ++ strDrop (dbLineSub [] "SELECT * FROM t") 6] :=
  c4_ordered_gate.2.2.2.1 [] "SELECT * FROM t" (by decide)

/-- C5 (counterexample): in ordered mode the non-SELECT line `FROM x`
of an embedded CREATE block is *not* emitted verbatim — the rank
projection is spliced into it as well, producing
`FROM x ROW_NUMBER() OVER(ORDER BY 1) AS RN,`. -/
theorem c5_counterexample :
    "FROM x ROW_NUMBER() OVER(ORDER BY 1) AS RN," ∈
      (process_test ⟨"sqlite", false, false, false⟩ .sqlite "x" c5Script noInc).1 ∧
    "FROM x" ∉
      (process_test ⟨"sqlite", false, false, false⟩ .sqlite "x" c5Script noInc).1 := by
  exact ⟨by decide, by decide⟩

/-- C5 (amended): in state `sql` with ordered mode active, *every*
non-END line — SELECT or not — has the synthetic rank projection spliced
immediately after its first six characters (after cross-database
rewriting); no line is emitted verbatim. -/
theorem c5_amended :
    ∀ (ntNames : List String) (line : String), ∃ arg,
      sql_state_emit ntNames (-1) line =
        [strTake (dbLineSub ntNames line) 6 ++ " ROW_NUMBER() OVER(" ++ arg ++
          ") AS RN," ++ strDrop (dbLineSub ntNames line) 6] := by
  intro nt line
  by_cases hc : strContains (dbLineSub nt line) "ORDER BY"
  · refine ⟨extract_order_by_clauses (dbLineSub nt line), ?_⟩
    simp only [sql_state_emit, hc]
    norm_num
    rw [rowNumberMergeAux]
  · refine ⟨"ORDER BY 1", ?_⟩
    simp only [sql_state_emit, hc]
    norm_num
    simp only [String.append_assoc]
    rfl

theorem strEqOfData (a b : String) (h : a.data = b.data) : a = b := by
  cases a with
  | mk d1 =>
    cases b with
    | mk d2 => exact congrArg String.mk h

theorem dropLast1_comma (x : String) : dropLast1 (x ++ ",") = x := by
  cases x with
  | mk d =>
    apply strEqOfData
    show (d ++ [',']).dropLast = d
    exact List.dropLast_concat ..

theorem reassemble_single_aux (ts : List (String × String)) :
    ∀ cmd : String, ts ≠ [] →
      dropLast1 (ts.foldl (fun c t =>
          if 1 = 1 then c ++ " " ++ t.1 ++ " " ++ t.2 ++ "," else c) cmd) =
        cmd ++ orderByTermsText ts := by
  induction ts with
  | nil => intro cmd h; exact absurd rfl h
  | cons t ts ih =>
    intro cmd _
    cases ts with
    | nil =>
      show dropLast1 ((cmd ++ " " ++ t.1 ++ " " ++ t.2) ++ ",") = _
      rw [dropLast1_comma]
      simp only [orderByTermsText, String.append_assoc]
    | cons t2 ts2 =>
      show dropLast1 (List.foldl _ ((cmd ++ " " ++ t.1 ++ " " ++ t.2) ++ ",") (t2 :: ts2)) = _
      rw [ih ((cmd ++ " " ++ t.1 ++ " " ++ t.2) ++ ",") (by simp)]
      simp only [orderByTermsText, String.append_assoc]

theorem reassemble_single (ts : List (String × String)) (h : ts ≠ []) :
    reassembleOrderBy 1 1 "ORDER BY" [ts] = "ORDER BY" ++ orderByTermsText ts := by
  show reassembleOrderBy 1 2 (dropLast1 _) [] = _
  rw [reassembleOrderBy]
  exact reassemble_single_aux ts "ORDER BY" h

/-- C6 (counterexample): for the line `SELECT * FROM t ORDER BY 1` the
parser finds no ORDER BY terms (`1` cannot start a column name), yet the
argument injected into `ROW_NUMBER() OVER(...)` is the dangling
`ORDER BY` — not `ORDER BY 1` as the claim states. -/
theorem c6_counterexample :
    searchOrderBy "SELECT * FROM t ORDER BY 1" = [] ∧
    sql_state_emit [] (-1) "SELECT * FROM t ORDER BY 1" =
      ["SELECT ROW_NUMBER() OVER(ORDER BY) AS RN, * FROM t ORDER BY 1"] ∧
    strContains "SELECT ROW_NUMBER() OVER(ORDER BY) AS RN, * FROM t ORDER BY 1"
      "OVER(ORDER BY 1" = false := by
  refine ⟨by decide, by decide, by decide⟩

/-- C6 (amended): in ordered mode, the `ORDER BY 1` fallback is used
exactly when the rewritten line does not contain the substring
`ORDER BY`; when it does, the injected argument is the extractor's
output, which preserves the column names and (ASC-defaulted,
canonically spelled) directions of the single parsed clause when
exactly one clause parses, and is the dangling `ORDER BY` (not
`ORDER BY 1`) when no clause parses. -/
theorem c6_amended :
    (∀ (ntNames : List String) (line : String),
      (strContains (dbLineSub ntNames line) "ORDER BY" = false →
        sql_state_emit ntNames (-1) line =
          [strTake (dbLineSub ntNames line) 6 ++
            " ROW_NUMBER() OVER(ORDER BY 1) AS RN," ++
            strDrop (dbLineSub ntNames line) 6]) ∧
      (strContains (dbLineSub ntNames line) "ORDER BY" = true →
        sql_state_emit ntNames (-1) line =
          [strTake (dbLineSub ntNames line) 6 ++ " ROW_NUMBER() OVER(" ++
            extract_order_by_clauses (dbLineSub ntNames line) ++ ") AS RN," ++
            strDrop (dbLineSub ntNames line) 6])) ∧
    (∀ s : String, searchOrderBy s = [] →
      extract_order_by_clauses s = "ORDER BY") ∧
    (∀ (s : String) (ts : List (String × String)),
      searchOrderBy s = [ts] → ts ≠ [] →
        extract_order_by_clauses s = "ORDER BY" ++ orderByTermsText ts) := by
  refine ⟨fun nt line => ⟨fun hc => ?_, fun hc => ?_⟩, fun s h => ?_, fun s ts h hne => ?_⟩
  · simp only [sql_state_emit, hc]
    norm_num
  · simp only [sql_state_emit, hc]
    norm_num
    rw [rowNumberMergeAux]
  · unfold extract_order_by_clauses
    rw [h]
    rfl
  · unfold extract_order_by_clauses
    rw [h]
    exact reassemble_single ts hne

/-- C6 witness: `c6_amended` applied to the line `SELECT * FROM t`
(no `ORDER BY` substring → fallback `ORDER BY 1`) and to
`SELECT * FROM t ORDER BY name DESC, id` (one parsed clause, whose
columns and directions — `ASC` defaulted for `id` — are preserved). -/
theorem c6_amended_witness :
    sql_state_emit [] (-1) "SELECT * FROM t" =
      [strTake (dbLineSub [] "SELECT * FROM t") 6 ++
        " ROW_NUMBER() OVER(ORDER BY 1) AS RN," ++
        strDrop (dbLineSub [] "SELECT * FROM t") 6] ∧
    extract_order_by_clauses "SELECT * FROM t ORDER BY name DESC, id" =
      "ORDER BY" ++ orderByTermsText [("name", "DESC"), ("id", "ASC")] :=
  ⟨(c6_amended.1 [] "SELECT * FROM t").1 (by decide),
   c6_amended.2.2 "SELECT * FROM t ORDER BY name DESC, id"
     [("name", "DESC"), ("id", "ASC")] (by decide) (by decide)⟩

theorem typeErr_ne_syntaxErr (n : Nat) (state reason : String) :
    ("TypeError: can only concatenate str (not \"NoneType\") to str" : String) ≠
      syntaxErrMsg n state reason := by
  intro h
  unfold syntaxErrMsg at h
  have h2 := congrArg String.data h
  simp only [String.data_append, List.append_assoc] at h2
  have h3 := congrArg (List.take ("Syntax error on line " : String).data.length) h2
  rw [List.take_left] at h3
  exact absurd h3 (by decide)

/-- C9 (code bug): a data row with no declared table name in the
current SETUP block is reported by `syntax_error` only when
`table_created` is still false.  A previous completed SETUP block leaves
`table_created` true, so the check is skipped and `insert_values` is
called with `table_name = None`, crashing with a `TypeError` instead of
the claimed syntax error.  The third conjunct shows the claimed
behaviour does hold in the base case (first block, no stale flag). -/
theorem c9_missing_table_bug :
    (process_test defaultArgs .mysql "x" c9Script noInc).2 =
      .error "TypeError: can only concatenate str (not \"NoneType\") to str" ∧
    (∀ (n : Nat) (state reason : String),
      (process_test defaultArgs .mysql "x" c9Script noInc).2 ≠
        .error (syntaxErrMsg n state reason)) ∧
    (process_test defaultArgs .mysql "x" ["BEGIN SETUP\n", "1\n"] noInc).2 =
      .error (syntaxErrMsg 2 "setup"
        "Attempt to provide data without specifying a table name") := by
  refine ⟨by decide, fun n state reason hcontra => ?_, by decide⟩
  have h1 : (process_test defaultArgs .mysql "x" c9Script noInc).2 =
      .error "TypeError: can only concatenate str (not \"NoneType\") to str" := by
    decide
  rw [h1] at hcontra
  have h2 : ("TypeError: can only concatenate str (not \"NoneType\") to str" : String) =
      syntaxErrMsg n state reason := by
    injection hcontra
  exact typeErr_ne_syntaxErr n state reason h2

theorem test_prefix_ne_default (db : String) : ("test_" ++ db) ≠ "default" := by
  intro h
  have h2 := congrArg String.data h
  simp only [String.data_append] at h2
  have h3 := congrArg (List.take ("test_" : String).data.length) h2
  rw [List.take_left] at h3
  exact absurd h3 (by decide)

/-- C8 (counterexample): the whole generated output for a script
referencing `default.t` contains the `test_default` creation pair
twice — once from `create_test_cases` (which passes a fresh empty
seen-name list) and once from the pre-scan. -/
theorem c8_counterexample :
    ((create_test_cases defaultArgs none "s.rdbu" c8Script noInc).1.count
      "CREATE DATABASE test_default;") = 2 := by
  decide

/-- C8 (amended): within one pre-scan (`create_databases`) every
database name is created at most once: the names created are exactly a
duplicate-free list of new names disjoint from the initial seen-name
list, each contributing one drop-and-create pair.  (The whole output can
still create the default namespace name twice, as the counterexample
shows, because `create_test_cases` uses a separate empty seen-name
list.) -/
theorem c8_amended :
    ∀ (e : DbEngine) (lines seen : List String),
      ∃ newNames : List String,
        (create_databases e lines seen).2 = seen ++ newNames ∧
        newNames.Nodup ∧
        (∀ n ∈ newNames, n ∉ seen) ∧
        (create_databases e lines seen).1 =
          newNames.flatMap (fun n => db_drop e n ++ db_create_db e n) := by
  intro e lines
  induction lines with
  | nil => intro seen; exact ⟨[], by simp [create_databases]⟩
  | cons l rest ih =>
    intro seen
    cases hm : matchDbTablespec l.toList with
    | none =>
      obtain ⟨nn, h1, h2, h3, h4⟩ := ih seen
      exact ⟨nn, by simp only [create_databases, hm]; exact h1,
             h2, h3, by simp only [create_databases, hm]; exact h4⟩
    | some db =>
      by_cases hin : ("test_" ++ db) ∈ seen
      · obtain ⟨nn, h1, h2, h3, h4⟩ := ih seen
        refine ⟨nn, ?_, h2, h3, ?_⟩
        · simp only [create_databases, hm, create_database, if_pos hin]
          exact h1
        · simp only [create_databases, hm, create_database, if_pos hin]
          simpa using h4
      · obtain ⟨nn, h1, h2, h3, h4⟩ := ih (seen ++ ["test_" ++ db])
        refine ⟨("test_" ++ db) :: nn, ?_, ?_, ?_, ?_⟩
        · simp only [create_databases, hm, create_database, if_neg hin,
            if_neg (test_prefix_ne_default db)]
          rw [h1]
          simp
        · refine List.nodup_cons.mpr ⟨fun hmem => ?_, h2⟩
          exact h3 _ hmem (by simp)
        · intro m hmem
          rcases List.mem_cons.mp hmem with h | h
          · rw [h]; exact hin
          · intro hseen
            exact h3 m h (by simp [hseen])
        · simp only [create_databases, hm, create_database, if_neg hin,
            if_neg (test_prefix_ne_default db)]
          rw [h4]
          simp [List.flatMap_cons, List.append_assoc]

theorem charEqOfToNat (c d : Char) (h : c.toNat = d.toNat) : c = d := by
  apply Char.ext
  exact UInt32.toNat.inj h

theorem lcVal_word (c : Char) (v : Nat) (h : lcVal c = v) (h1 : 97 ≤ v)
    (h2 : v ≤ 122) : isWordCharB c = true := by
  unfold lcVal at h
  unfold isWordCharB
  split at h
  · next hr => simp only [decide_eq_true_eq]; omega
  · next hr => simp only [decide_eq_true_eq]; omega

theorem lcVal_dot (c : Char) (h : lcVal c = 46) : c = '.' := by
  unfold lcVal at h
  split at h
  · next hr => omega
  · next hr => exact charEqOfToNat c '.' h

theorem eqCaseless_dot (c : Char) : eqCaseless c '.' = true ↔ c = '.' := by
  constructor
  · intro h
    simp only [eqCaseless, decide_eq_true_eq] at h
    exact lcVal_dot c h
  · intro h
    subst h
    rfl

theorem caselessPrefixSp_append (p q : List Char) :
    ∀ s : List Char,
      caselessPrefixSp (p ++ q) s =
        match caselessPrefixSp p s with
        | some (sp, r) => (caselessPrefixSp q r).map (fun pr => (sp ++ pr.1, pr.2))
        | none => none := by
  induction p with
  | nil =>
    intro s
    simp only [List.nil_append, caselessPrefixSp]
    cases hq : caselessPrefixSp q s with
    | none => rfl
    | some pr => simp
  | cons p ps ih =>
    intro s
    cases s with
    | nil => simp [caselessPrefixSp]
    | cons c cs =>
      simp only [List.cons_append, caselessPrefixSp]
      by_cases hc : eqCaseless c p
      · rw [if_pos hc, if_pos hc]
        rw [show ps.append q = ps ++ q from rfl, ih cs]
        cases hps : caselessPrefixSp ps cs with
        | none => rfl
        | some pr =>
          obtain ⟨sp2, r2⟩ := pr
          cases hq : caselessPrefixSp q r2 with
          | none => simp [hq]
          | some pr2 => simp [hq]
      · rw [if_neg hc, if_neg hc]

theorem try_iff_caseless (s : List Char) :
    (try_names_dot ["orders"] s).isSome =
      (caselessPrefixSp "orders.".toList s).isSome := by
  have hsplit : ("orders.".toList) = "orders".toList ++ ['.'] := by decide
  have happ := caselessPrefixSp_append "orders".toList ['.'] s
  cases hp : caselessPrefixSp "orders".toList s with
  | none =>
    have hright : caselessPrefixSp "orders.".toList s = none := by
      rw [hsplit, happ, hp]
    have hleft : try_names_dot ["orders"] s = none := by
      rw [try_names_dot, hp]
      rfl
    rw [hleft, hright]
  | some pr =>
    obtain ⟨sp, r⟩ := pr
    cases r with
    | nil =>
      have hright : caselessPrefixSp "orders.".toList s = none := by
        rw [hsplit, happ, hp]
        show (caselessPrefixSp ['.'] []).map _ = none
        rfl
      have hleft : try_names_dot ["orders"] s = none := by
        rw [try_names_dot, hp]
        rfl
      rw [hleft, hright]
    | cons d r2 =>
      by_cases hd : d = '.'
      · subst hd
        have hdot : caselessPrefixSp ['.'] ('.' :: r2) = some (['.'], r2) := by
          simp only [caselessPrefixSp]
          rw [if_pos ((eqCaseless_dot '.').mpr rfl)]
          rfl
        have hright : caselessPrefixSp "orders.".toList s =
            some (sp ++ ['.'], r2) := by
          rw [hsplit, happ, hp]
          show (caselessPrefixSp ['.'] ('.' :: r2)).map _ = _
          rw [hdot]
          rfl
        have hleft : try_names_dot ["orders"] s = some (sp, r2) := by
          rw [try_names_dot, hp]
          split
          · next sp2 r3 heq =>
            simp only [Option.some.injEq, Prod.mk.injEq, List.cons.injEq] at heq
            rw [heq.1, heq.2.2]
          · next _x heq =>
            exact absurd rfl (fun hcon => heq sp r2 hcon)
        rw [hleft, hright]
        rfl
      · have hdot : caselessPrefixSp ['.'] (d :: r2) = none := by
          simp only [caselessPrefixSp]
          rw [if_neg (fun hc => hd ((eqCaseless_dot d).mp hc))]
        have hright : caselessPrefixSp "orders.".toList s = none := by
          rw [hsplit, happ, hp]
          show (caselessPrefixSp ['.'] (d :: r2)).map _ = none
          rw [hdot]
          rfl
        have hleft : try_names_dot ["orders"] s = none := by
          rw [try_names_dot, hp]
          split
          · next sp2 r3 heq =>
            exfalso
            simp only [Option.some.injEq, Prod.mk.injEq, List.cons.injEq] at heq
            exact hd heq.2.1
          · rfl
        rw [hleft, hright]

theorem try_fail_head (c : Char) (rest : List Char) (h : lcVal c ≠ 111) :
    try_names_dot ["orders"] (c :: rest) = none := by
  rw [try_names_dot]
  have hfail : caselessPrefixSp "orders".toList (c :: rest) = none := by
    show caselessPrefixSp ('o' :: "rders".toList) (c :: rest) = none
    simp only [caselessPrefixSp]
    rw [if_neg]
    simp only [eqCaseless, decide_eq_true_eq]
    intro hcontra
    exact h hcontra
  rw [hfail]
  rfl

theorem resid_step_false (prev : Option Char) (c : Char) (rest : List Char)
    (h : lcVal c ≠ 111) :
    (boundaryB prev (c :: rest) && (try_names_dot ["orders"] (c :: rest)).isSome) =
      false := by
  rw [try_fail_head c rest h]
  simp

theorem resid_step_word (p c : Char) (rest : List Char) (x : Bool)
    (hp : isWordCharB p = true) (hc : isWordCharB c = true) :
    (boundaryB (some p) (c :: rest) && x) = false := by
  simp [boundaryB, wordish, hp, hc]

theorem boundaryB_cons (prev : Option Char) (c : Char) (xs : List Char) :
    boundaryB prev (c :: xs) = (wordish prev != isWordCharB c) := by
  simp [boundaryB, wordish]

/-- Case-insensitive-prefix checks against any suffix of `orders.`
transfer from the rewriter's output back to its input: the inserted
`test_` text cannot begin such a prefix. -/
theorem caseless_transfer :
    ∀ (fuel : Nat) (u : List Char) (pat : List Char)
      (hsfx : pat <:+ ("orders.".toList)) (prev : Option Char),
      (caselessPrefixSp pat (db_sub_aux ["orders"] fuel prev u)).isSome = true →
      (caselessPrefixSp pat u).isSome = true := by
  intro fuel
  induction fuel with
  | zero => intro u pat _ prev h; exact h
  | succ fuel ih =>
    intro u pat hsfx prev h
    cases u with
    | nil => exact h
    | cons c rest =>
      rw [db_sub_aux] at h
      by_cases hb : boundaryB prev (c :: rest)
      · rw [if_pos hb] at h
        cases htry : try_names_dot ["orders"] (c :: rest) with
        | some pr =>
          obtain ⟨sp, r⟩ := pr
          rw [htry] at h
          cases pat with
          | nil => rfl
          | cons p ps =>
            exfalso
            have hmem : p ∈ ("orders.".toList) :=
              hsfx.subset (List.mem_cons_self ..)
            have hne : lcVal p ≠ 116 := by
              have hall : ∀ x ∈ ("orders.".toList), lcVal x ≠ 116 := by decide
              exact hall p hmem
            simp only [caselessPrefixSp] at h
            rw [if_neg] at h
            · simp at h
            · simp only [eqCaseless, decide_eq_true_eq]
              intro hcontra
              exact hne hcontra.symm
        | none =>
          rw [htry] at h
          cases pat with
          | nil => rfl
          | cons p ps =>
            simp only [caselessPrefixSp] at h ⊢
            by_cases hc : eqCaseless c p
            · rw [if_pos hc] at h ⊢
              have hps : ps <:+ ("orders.".toList) :=
                (List.suffix_cons p ps).trans hsfx
              have h2 : (caselessPrefixSp ps
                  (db_sub_aux ["orders"] fuel (some c) rest)).isSome = true := by
                cases hq : caselessPrefixSp ps
                    (db_sub_aux ["orders"] fuel (some c) rest) with
                | none => rw [hq] at h; simp at h
                | some pr2 => simp
              have h3 := ih rest ps hps (some c) h2
              cases hq2 : caselessPrefixSp ps rest with
              | none => rw [hq2] at h3; simp at h3
              | some pr3 => simp
            · rw [if_neg hc] at h
              simp at h
      · rw [if_neg hb] at h
        cases pat with
        | nil => rfl
        | cons p ps =>
          simp only [caselessPrefixSp] at h ⊢
          by_cases hc : eqCaseless c p
          · rw [if_pos hc] at h ⊢
            have hps : ps <:+ ("orders.".toList) :=
              (List.suffix_cons p ps).trans hsfx
            have h2 : (caselessPrefixSp ps
                (db_sub_aux ["orders"] fuel (some c) rest)).isSome = true := by
              cases hq : caselessPrefixSp ps
                  (db_sub_aux ["orders"] fuel (some c) rest) with
              | none => rw [hq] at h; simp at h
              | some pr2 => simp
            have h3 := ih rest ps hps (some c) h2
            cases hq2 : caselessPrefixSp ps rest with
            | none => rw [hq2] at h3; simp at h3
            | some pr3 => simp
          · rw [if_neg hc] at h
            simp at h

theorem db_sub_aux_cons_match (names : List String) (fuel : Nat)
    (prev : Option Char) (c : Char) (rest sp r : List Char)
    (h : boundaryB prev (c :: rest) = true)
    (ht : try_names_dot names (c :: rest) = some (sp, r)) :
    db_sub_aux names (fuel + 1) prev (c :: rest) =
      't' :: 'e' :: 's' :: 't' :: '_' ::
        (sp ++ '.' :: db_sub_aux names fuel (some '.') r) := by
  rw [db_sub_aux, if_pos h, ht]

theorem db_sub_aux_cons_skip (names : List String) (fuel : Nat)
    (prev : Option Char) (c : Char) (rest : List Char)
    (h : boundaryB prev (c :: rest) = true)
    (ht : try_names_dot names (c :: rest) = none) :
    db_sub_aux names (fuel + 1) prev (c :: rest) =
      c :: db_sub_aux names fuel (some c) rest := by
  rw [db_sub_aux, if_pos h, ht]

theorem db_sub_aux_cons_nob (names : List String) (fuel : Nat)
    (prev : Option Char) (c : Char) (rest : List Char)
    (h : boundaryB prev (c :: rest) = false) :
    db_sub_aux names (fuel + 1) prev (c :: rest) =
      c :: db_sub_aux names fuel (some c) rest := by
  rw [db_sub_aux, if_neg (by rw [h]; exact Bool.false_ne_true)]

/-- After the rewriter has run (with sufficient fuel, i.e. the input
length), no word-boundary, case-insensitive occurrence of a registered
name followed by a dot remains: every occurrence was replaced. -/
theorem no_residual :
    ∀ (fuel : Nat) (s : List Char) (prev : Option Char), s.length ≤ fuel →
      has_residual ["orders"] prev (db_sub_aux ["orders"] fuel prev s) = false := by
  intro fuel
  induction fuel with
  | zero =>
    intro s prev hlen
    have hnil : s = [] := List.length_eq_zero.mp (Nat.le_zero.mp hlen)
    subst hnil
    rfl
  | succ fuel ih =>
    intro s prev hlen
    cases s with
    | nil => rfl
    | cons c rest =>
      have hlen2 : rest.length ≤ fuel := by
        simp only [List.length_cons] at hlen
        omega
      by_cases hb : boundaryB prev (c :: rest)
      · cases htry : try_names_dot ["orders"] (c :: rest) with
        | some pr =>
          obtain ⟨sp, r⟩ := pr
          rw [db_sub_aux_cons_match ["orders"] fuel prev c rest sp r hb htry]
          obtain ⟨nm, hnm, heq, hsp⟩ := try_names_dot_decomp _ _ _ _ htry
          rw [List.mem_singleton] at hnm
          subst hnm
          have hsp6 : sp.map lcVal = [111, 114, 100, 101, 114, 115] := by
            rw [hsp]; decide
          have hlenr : r.length ≤ fuel := by
            have := congrArg List.length heq
            simp only [List.length_cons, List.length_append] at this
            omega
          have hIH := ih r (some '.') hlenr
          rcases sp with _ | ⟨a, _ | ⟨b, _ | ⟨c2, _ | ⟨d2, _ | ⟨e2, _ |
            ⟨f, _ | ⟨g, tl⟩⟩⟩⟩⟩⟩⟩ <;>
            first
              | (exfalso; simp at hsp6; done)
              | skip
          simp only [List.map_cons, List.map_nil, List.cons.injEq] at hsp6
          obtain ⟨ha, hb2, hc2, hd2, he2, hf, -⟩ := hsp6
          simp only [List.cons_append, List.nil_append]
          simp only [has_residual]
          rw [resid_step_false prev 't' _ (by decide),
              resid_step_false (some 't') 'e' _ (by decide),
              resid_step_false (some 'e') 's' _ (by decide),
              resid_step_false (some 's') 't' _ (by decide),
              resid_step_false (some 't') '_' _ (by decide),
              resid_step_word '_' a _ _ (by decide)
                (lcVal_word a 111 ha (by omega) (by omega)),
              resid_step_false (some a) b _ (by rw [hb2]; decide),
              resid_step_false (some b) c2 _ (by rw [hc2]; decide),
              resid_step_false (some c2) d2 _ (by rw [hd2]; decide),
              resid_step_false (some d2) e2 _ (by rw [he2]; decide),
              resid_step_false (some e2) f _ (by rw [hf]; decide),
              resid_step_false (some f) '.' _ (by decide)]
          simp only [Bool.false_or]
          exact hIH
        | none =>
          rw [db_sub_aux_cons_skip ["orders"] fuel prev c rest hb htry]
          have hresid := ih rest (some c) hlen2
          rw [has_residual]
          cases hS : (try_names_dot ["orders"]
              (c :: db_sub_aux ["orders"] fuel (some c) rest)).isSome with
          | false => simp [hresid]
          | true =>
            exfalso
            rw [try_iff_caseless] at hS
            rw [← db_sub_aux_cons_skip ["orders"] fuel prev c rest hb htry] at hS
            have h2 := caseless_transfer (fuel + 1) (c :: rest)
              "orders.".toList (List.suffix_refl _) prev hS
            rw [← try_iff_caseless, htry] at h2
            simp at h2
      · simp only [Bool.not_eq_true] at hb
        rw [db_sub_aux_cons_nob ["orders"] fuel prev c rest hb]
        have hresid := ih rest (some c) hlen2
        rw [has_residual]
        rw [boundaryB_cons] at hb ⊢
        rw [hb]
        simp [hresid]

/-- C7 (confirmed): with the pre-scan having registered `orders` (the
stripped form of `test_orders`), the embedded-SQL rewrite replaces every
word-boundary, case-insensitive occurrence of `orders.` — afterwards no
such occurrence remains anywhere in the line (the inserted `test_`
prefix removes the word boundary) — while `myorders.customers` is left
untouched; the concrete conjuncts show the exact-case and mixed-case
replacements. -/
theorem c7_rewrite :
    non_test "test_orders" = "orders" ∧
    (∀ s : String,
      has_residual ["orders"] none (dbLineSub ["orders"] s).toList = false) ∧
    dbLineSub ["orders"] "SELECT * FROM orders.customers" =
      "SELECT * FROM test_orders.customers" ∧
    dbLineSub ["orders"] "SELECT * FROM myorders.customers" =
      "SELECT * FROM myorders.customers" ∧
    dbLineSub ["orders"] "SELECT * FROM Orders.Customers" =
      "SELECT * FROM test_Orders.Customers" := by
  refine ⟨by decide, fun s => ?_, by decide, by decide, by decide⟩
  exact no_residual s.toList.length s.toList none (Nat.le_refl _)

end Rdbunit
